import Mathlib

/-!
Verification development for the single-SP communication core of
`gateway-sp-comms` (`src/gateway-sp-comms/src/single_sp.rs`).

The definitions below are a shallow embedding of the Rust source: pure
computations become Lean functions, the reactor's RPC loops become recursive
functions over explicit event traces (one event per message received from the
socket, tagged with the delay since the previous event), and durations are
natural numbers of milliseconds.  Fallible Rust code returns `Except` /
`Outcome` values; a Rust `panic!` (e.g. `.unwrap()` on an `Err`) is modelled
by the dedicated `Outcome.panicked` value.
-/

deriving instance DecidableEq for Except

/-- Errors reported by the SP itself (`gateway_messages::SpError`); only the
variants relevant to the verified claims are distinguished, all others are
collapsed into `other`. -/
inductive SpError where
  | busy
  | resetComponentTriggerWithoutPrepare
  | serialConsoleAlreadyAttached
  | other (code : Nat)
deriving DecidableEq, Repr

/-- Response variants (`gateway_messages::SpResponse`); only the variants the
claims mention are distinguished. -/
inductive SpResponse where
  | discover
  | spState
  | cabooseValue
  | serialConsoleAttachAck
  | serialConsoleDetachAck
  | serialConsoleWriteAck (furthestIngestedOffset : Nat)
  | resetComponentTriggerAck
  | error (e : SpError)
deriving DecidableEq, Repr

/-- Modelled from the spec: the `SpResponseExt::name` helper
(`sp_response_ext.rs`, not under `src/`) giving the variant name used in
bad-response-type errors ("expected vs got names"). -/
def SpResponse.name : SpResponse → String
  | .discover => "discover"
  | .spState => "sp_state"
  | .cabooseValue => "caboose_value"
  | .serialConsoleAttachAck => "serial_console_attach_ack"
  | .serialConsoleDetachAck => "serial_console_detach_ack"
  | .serialConsoleWriteAck _ => "serial_console_write_ack"
  | .resetComponentTriggerAck => "reset_component_trigger_ack"
  | .error _ => "error"

/-- The `gateway_messages::SpComponent` type: a fixed-size component id, modelled by
its id string. -/
structure SpComponent where
  id : String
deriving DecidableEq, Repr

/-- The constant `SpComponent::SP_ITSELF` (id string "sp"). -/
def SpComponent.SP_ITSELF : SpComponent := ⟨"sp"⟩

/-- Request variants (`gateway_messages::MgsRequest`); the claims only need
the two self-reset requests to be distinguished, plus a sample of the other
request kinds emitted by the core. -/
inductive MgsRequest where
  | discover
  | spState
  | inventory (deviceIndex : Nat)
  | readCaboose
  | readComponentCaboose (component : SpComponent) (slot : Nat)
  | serialConsoleAttach (component : SpComponent)
  | serialConsoleWrite (offset : Nat)
  | serialConsoleKeepAlive
  | serialConsoleDetach
  | resetComponentPrepare (component : SpComponent)
  | resetComponentTrigger (component : SpComponent)
  | resetTrigger
deriving DecidableEq, Repr

/-- The `crate::error::CommunicationError` type, restricted to the variants produced
by `single_sp.rs`. -/
inductive CommunicationError where
  | spError (e : SpError)
  | badResponseType (expected got : String)
  | exhaustedNumAttempts (n : Nat)
  | tlvPagination (reason : String)
  | bogusSerialConsoleState
  | noSpDiscovered
deriving DecidableEq, Repr

/-- Result of running a piece of Rust code that can succeed, fail with a
`CommunicationError`, or panic (`unwrap` on an `Err`). -/
inductive Outcome (α : Type) where
  | ok (val : α)
  | err (e : CommunicationError)
  | panicked
deriving DecidableEq, Repr

/-- State of the `backoff::ExponentialBackoff` used for busy SPs.  The
external crate's randomization of each interval is abstracted away: intervals
are the configured nominal ones (milliseconds). -/
structure BackoffState where
  currentInterval : Nat
  initialInterval : Nat
  multiplier : Nat
  maxInterval : Nat
  maxElapsedTime : Option Nat
deriving DecidableEq, Repr

/-- The function `sp_busy_policy()` (single_sp.rs lines 2019-2031): exponential backoff,
initial interval 20 ms, multiplier 2.0, max interval 1000 ms, no max elapsed
time. -/
def sp_busy_policy : BackoffState :=
  { currentInterval := 20
    initialInterval := 20
    multiplier := 2
    maxInterval := 1000
    maxElapsedTime := none }

/-- The method `Backoff::next_backoff` of `backoff::ExponentialBackoff` (nominal
behaviour): with no max elapsed time it always yields the current interval
and multiplies the stored interval by the multiplier, capped at the max
interval.  With a max elapsed time the crate gives up once that much time has
passed; since `sp_busy_policy` sets `max_elapsed_time: None`, that branch is
conservatively modelled as giving up immediately and is unreachable here. -/
def nextBackoff (b : BackoffState) : Option (Nat × BackoffState) :=
  match b.maxElapsedTime with
  | some _ => none
  | none =>
    some (b.currentInterval,
      { b with currentInterval := min (b.currentInterval * b.multiplier) b.maxInterval })

/-- The constant `SP_RESET_TIME_ALLOWED` (single_sp.rs line 1750), in milliseconds. -/
def SP_RESET_TIME_ALLOWED_MS : Nat := 30000

/-- The `calc_reset_attempts` closure in `rpc_call` (single_sp.rs lines
1788-1792): `((time_desired + per_attempt - 1) / per_attempt)` with
`per_attempt = per_attempt_timeout.as_millis().max(1)`. -/
def calc_reset_attempts (perAttemptTimeoutMs : Nat) : Nat :=
  (SP_RESET_TIME_ALLOWED_MS + max perAttemptTimeoutMs 1 - 1) / max perAttemptTimeoutMs 1

/-- The `max_attempts` computation of `rpc_call` (single_sp.rs lines
1793-1801): self-reset requests (`ResetComponentTrigger` on `SP_ITSELF` and
`ResetTrigger`) use `calc_reset_attempts`, everything else uses the
configured `max_attempts_per_rpc`. -/
def rpcMaxAttempts (kind : MgsRequest) (maxAttemptsPerRpc perAttemptTimeoutMs : Nat) : Nat :=
  match kind with
  | .resetComponentTrigger component =>
    if component = SpComponent.SP_ITSELF then calc_reset_attempts perAttemptTimeoutMs
    else maxAttemptsPerRpc
  | .resetTrigger => calc_reset_attempts perAttemptTimeoutMs
  | _ => maxAttemptsPerRpc

/-- Characterisation used to relate `calc_reset_attempts` to a ceiling
division: `(a + d - 1) / d ≤ m ↔ a ≤ m * d` for positive `d`. -/
theorem ceil_div_le_iff (a d m : Nat) (hd : 0 < d) : (a + d - 1) / d ≤ m ↔ a ≤ m * d := by
  rw [Nat.div_le_iff_le_mul_add_pred hd, Nat.mul_comm d m]
  omega

/-- Messages delivered by `InnerSocket::recv` (`SingleSpMessage`): host phase
2 requests and serial console data are out-of-band; `SpResponse` carries the
header's message id. -/
inductive InboundMsg where
  | hostPhase2Request
  | serialConsoleData
  | spResponse (messageId : Nat) (response : SpResponse)
deriving DecidableEq, Repr

/-- Whether a message is SP-initiated out-of-band traffic (not an RPC
reply). -/
def InboundMsg.isOutOfBand : InboundMsg → Bool
  | .hostPhase2Request => true
  | .serialConsoleData => true
  | .spResponse _ _ => false

/-- One socket event: the delay in milliseconds since the previous event of
the attempt (or since the attempt's initial send), and the message. -/
abbrev TimedMsg := Nat × InboundMsg

/-- Instrumented result of `rpc_call_one_attempt`: the Rust return value
(`Ok(None)` = this attempt timed out / was abandoned), the number of times
the serialized request was sent, the list of busy-backoff sleeps performed
(milliseconds), and the total time consumed by the attempt. -/
structure AttemptRun where
  result : Outcome (Option SpResponse)
  sends : Nat
  sleeps : List Nat
  elapsed : Nat
deriving DecidableEq, Repr

/-- The loop body of `rpc_call_one_attempt` (single_sp.rs lines 1822-1926),
run against a finite trace of socket events.

State per iteration: `resend` (whether to resend the request and reset the
per-attempt timer), the busy-backoff state, and `remaining` = time left until
the per-attempt timer fires (the timer is reset to `tmo` exactly when the
request is (re)sent).  An event whose delay reaches the remaining time means
the timer fired first (`select!`): the attempt returns `Ok(None)`.  An
exhausted trace stands for a socket with nothing more to deliver, so the
timer fires.  An `SpResponse` with a foreign message id abandons the attempt
(`Ok(None)`); a matching `Error(Busy)` sleeps for the next backoff interval
and continues the loop (resending); any other matching error returns `Err`;
a matching non-error response returns `Ok(Some _)`.  Out-of-band messages
continue the loop without resending (and hence without resetting the
timer). -/
def rpcAttemptLoop (tmo msgId : Nat) (resend : Bool) (backoff : BackoffState)
    (remaining : Nat) (events : List TimedMsg) : AttemptRun :=
  let sends0 : Nat := if resend then 1 else 0
  let rem0 : Nat := if resend then tmo else remaining
  match events with
  | [] => ⟨.ok none, sends0, [], rem0⟩
  | (delay, msg) :: rest =>
    if rem0 ≤ delay then ⟨.ok none, sends0, [], rem0⟩
    else
      match msg with
      | .hostPhase2Request =>
        let r := rpcAttemptLoop tmo msgId false backoff (rem0 - delay) rest
        ⟨r.result, sends0 + r.sends, r.sleeps, delay + r.elapsed⟩
      | .serialConsoleData =>
        let r := rpcAttemptLoop tmo msgId false backoff (rem0 - delay) rest
        ⟨r.result, sends0 + r.sends, r.sleeps, delay + r.elapsed⟩
      | .spResponse id resp =>
        if id = msgId then
          match resp with
          | .error .busy =>
            match nextBackoff backoff with
            | some (interval, backoff') =>
              let r := rpcAttemptLoop tmo msgId true backoff' (rem0 - delay) rest
              ⟨r.result, sends0 + r.sends, interval :: r.sleeps, delay + interval + r.elapsed⟩
            | none => ⟨.panicked, sends0, [], delay⟩
          | .error e => ⟨.err (.spError e), sends0, [], delay⟩
          | _ => ⟨.ok (some resp), sends0, [], delay⟩
        else ⟨.ok none, sends0, [], delay⟩

/-- The function `rpc_call_one_attempt` (single_sp.rs lines 1822-1926): starts with
`resend_request = true`, a fresh `sp_busy_policy()` backoff, and the
per-attempt timer armed by the initial send. -/
def rpc_call_one_attempt (tmo msgId : Nat) (events : List TimedMsg) : AttemptRun :=
  rpcAttemptLoop tmo msgId true sp_busy_policy tmo events

/-- Instrumented result of `rpc_call`: the Rust return value and the number
of attempts actually performed. -/
structure RpcRun where
  result : Outcome SpResponse
  attemptsUsed : Nat
deriving DecidableEq, Repr

/-- The attempt loop of `rpc_call` (single_sp.rs lines 1803-1819): run one
attempt per iteration (attempt `attempt` sees the socket events `traces
attempt`); an error propagates, a response returns, a timed-out attempt
(`None`) continues; once `remaining` attempts are exhausted the call fails
with `ExhaustedNumAttempts(self.max_attempts_per_rpc)` — note the error
carries the configured `maxAttemptsPerRpc`, not the possibly different
derived attempt count. -/
def rpcCallAttempts (tmo msgId maxAttemptsPerRpc : Nat) (traces : Nat → List TimedMsg)
    (attempt remaining : Nat) : RpcRun :=
  match remaining with
  | 0 => ⟨.err (.exhaustedNumAttempts maxAttemptsPerRpc), 0⟩
  | rem + 1 =>
    let a := rpc_call_one_attempt tmo msgId (traces attempt)
    match a.result with
    | .err e => ⟨.err e, 1⟩
    | .panicked => ⟨.panicked, 1⟩
    | .ok (some r) => ⟨.ok r, 1⟩
    | .ok none =>
      let rest := rpcCallAttempts tmo msgId maxAttemptsPerRpc traces (attempt + 1) rem
      ⟨rest.result, rest.attemptsUsed + 1⟩

/-- The function `rpc_call` (single_sp.rs lines 1738-1820), restricted to its retry
behaviour: the request is serialized once (with message id `msgId`), the max
attempt count is derived from the request kind, and the attempts run with the
per-attempt timeout `perAttemptTimeoutMs`. -/
def rpc_call (kind : MgsRequest) (maxAttemptsPerRpc perAttemptTimeoutMs msgId : Nat)
    (traces : Nat → List TimedMsg) : RpcRun :=
  rpcCallAttempts perAttemptTimeoutMs msgId maxAttemptsPerRpc traces 1
    (rpcMaxAttempts kind maxAttemptsPerRpc perAttemptTimeoutMs)

/-- Modelled from the spec: `SpResponseExt::expect_sys_reset_component_trigger_ack`
(`sp_response_ext.rs`, not under `src/`) — "asserts the response variant
matches the expectation (mismatch → bad response type)". -/
def expect_sys_reset_component_trigger_ack (response : SpResponse) :
    Except CommunicationError Unit :=
  match response with
  | .resetComponentTriggerAck => .ok ()
  | r => .error (.badResponseType "reset_component_trigger_ack" r.name)

/-- The method `SingleSp::reset_component_trigger` (single_sp.rs lines 772-805) as a
function of the target component and the outcome of the
`ResetComponentTrigger` RPC. -/
def reset_component_trigger (component : SpComponent)
    (rpcResult : Except CommunicationError SpResponse) : Except CommunicationError Unit :=
  match rpcResult with
  | .ok response =>
    if component = SpComponent.SP_ITSELF then
      .error (.badResponseType "system-reset" response.name)
    else
      expect_sys_reset_component_trigger_ack response
  | .error (.spError .resetComponentTriggerWithoutPrepare) =>
    if component = SpComponent.SP_ITSELF then .ok ()
    else .error (.spError .resetComponentTriggerWithoutPrepare)
  | .error other => .error other

/-- Modelled from the spec: `SpResponseExt::expect_caboose_value`
(`sp_response_ext.rs`, not under `src/`) — mismatch yields the
bad-response-type error with expected and got names. -/
def expect_caboose_value (response : SpResponse) : Except CommunicationError Unit :=
  match response with
  | .cabooseValue => .ok ()
  | r => .error (.badResponseType "caboose_value" r.name)

/-- The method `SingleSp::get_caboose_value` (single_sp.rs lines 735-743) as a function
of the RPC outcome (response plus trailing data).  The source maps over the
result and calls `response.expect_caboose_value().unwrap()`: an `Err` from
the variant check panics instead of being returned. -/
def get_caboose_value (rpcResult : Except CommunicationError (SpResponse × List Nat)) :
    Outcome (List Nat) :=
  match rpcResult with
  | .error e => .err e
  | .ok (response, data) =>
    match expect_caboose_value response with
    | .ok _ => .ok data
    | .error _ => .panicked

/-- The method `SingleSp::read_component_caboose` (single_sp.rs lines 819-836): same
shape as `get_caboose_value`, including the `.unwrap()` on the variant
check. -/
def read_component_caboose (component : SpComponent) (slot : Nat) (key : List Nat)
    (rpcResult : Except CommunicationError (SpResponse × List Nat)) :
    Outcome (List Nat) :=
  match component, slot, key, rpcResult with
  | _, _, _, .error e => .err e
  | _, _, _, .ok (response, data) =>
    match expect_caboose_value response with
    | .ok _ => .ok data
    | .error _ => .panicked

/-- The serial-console part of the reactor state (`Inner`): whether the
console channel sender slot is occupied, and the current connection key. -/
structure ReactorConsoleState where
  serialConsoleTx : Bool
  serialConsoleConnectionKey : Nat
deriving DecidableEq, Repr

/-- Modelled from the spec: `SpResponseExt::expect_serial_console_detach_ack`
(`sp_response_ext.rs`, not under `src/`). -/
def expect_serial_console_detach_ack (response : SpResponse) :
    Except CommunicationError Unit :=
  match response with
  | .serialConsoleDetachAck => .ok ()
  | r => .error (.badResponseType "serial_console_detach_ack" r.name)

/-- The method `Inner::detach_serial_console` (single_sp.rs lines 2010-2016) as a
function of the outcome of the `SerialConsoleDetach` RPC: on an acked detach
the channel sender is dropped (`serial_console_tx = None`); on failure the
state is unchanged. -/
def detach_serial_console (st : ReactorConsoleState)
    (rpcResult : Except CommunicationError SpResponse) :
    Except CommunicationError Unit × ReactorConsoleState :=
  match rpcResult with
  | .error e => (.error e, st)
  | .ok response =>
    match expect_serial_console_detach_ack response with
    | .error e => (.error e, st)
    | .ok _ => (.ok (), { st with serialConsoleTx := false })

/-- The `InnerCommand::SerialConsoleDetach` arm of `Inner::handle_command`
(single_sp.rs lines 1703-1712): detach if no key was given or the key matches
the current connection key, otherwise succeed silently.  The last component
of the result is the number of detach RPCs issued. -/
def handle_serial_console_detach (key : Option Nat) (st : ReactorConsoleState)
    (rpcResult : Except CommunicationError SpResponse) :
    Except CommunicationError Unit × ReactorConsoleState × Nat :=
  if key = none ∨ key = some st.serialConsoleConnectionKey then
    let r := detach_serial_console st rpcResult
    (r.1, r.2, 1)
  else
    (.ok (), st, 0)

/-- The `gateway_messages::TlvPage` type: the page header returned by paginated
queries. -/
structure TlvPage where
  offset : Nat
  total : Nat
deriving DecidableEq, Repr

/-- The constant `TLV_RPC_TOTAL_ITEMS_DOS_LIMIT` (single_sp.rs line 93). -/
def TLV_RPC_TOTAL_ITEMS_DOS_LIMIT : Nat := 1024

/-- Abstraction of one paginated RPC round trip
(`self.rpc(rpc.request(offset))` followed by `rpc.parse_response`): given the
requested offset, the SP either fails the RPC or produces a page header plus
the results of `tlv::decode_iter` over the page's trailing bytes (each tag
as a `Nat`, each value as a byte list; a malformed TLV chunk is an
`Except.error`). -/
abbrev PageOracle :=
  Nat → Except CommunicationError (TlvPage × List (Except CommunicationError (Nat × List Nat)))

/-- The TLV-decoding `for` loop inside `get_paginated_tlv_data` (single_sp.rs
lines 502-524): for each decoded chunk, propagate TLV decode errors, fail if
the SP already returned `total` entries (over-reporting), then let the
query-specific `parse_tag_value` either produce an entry (pushed), skip an
unknown tag, or fail. -/
def processPage {Item : Type} (parse : Nat → List Nat → Except CommunicationError (Option Item))
    (total : Nat) : List Item → List (Except CommunicationError (Nat × List Nat)) →
    Except CommunicationError (List Item)
  | entries, [] => .ok entries
  | entries, result :: rest =>
    match result with
    | .error e => .error e
    | .ok (tag, value) =>
      if total ≤ entries.length then
        .error (.tlvPagination "SP returned more entries than its reported total")
      else
        match parse tag value with
        | .error e => .error e
        | .ok (some entry) => processPage parse total (entries ++ [entry]) rest
        | .ok none => processPage parse total entries rest

/-- The function `processPage` never removes entries. -/
theorem processPage_mono {Item : Type}
    (parse : Nat → List Nat → Except CommunicationError (Option Item)) (total : Nat)
    (raw : List (Except CommunicationError (Nat × List Nat))) :
    ∀ entries entries' : List Item,
      processPage parse total entries raw = .ok entries' →
      entries.length ≤ entries'.length := by
  induction raw with
  | nil =>
    intro entries entries' h
    simp only [processPage] at h
    cases h
    exact le_refl _
  | cons result rest ih =>
    intro entries entries' h
    simp only [processPage] at h
    cases result with
    | error e => cases h
    | ok tv =>
      obtain ⟨tag, value⟩ := tv
      by_cases hlen : total ≤ entries.length
      · simp [hlen] at h
      · simp only [if_neg hlen] at h
        cases hp : parse tag value with
        | error e => rw [hp] at h; cases h
        | ok o =>
          cases o with
          | some entry =>
            rw [hp] at h
            have := ih (entries ++ [entry]) entries' h
            simpa using Nat.le_trans (by simp) this
          | none =>
            rw [hp] at h
            exact ih entries entries' h

/-- The function `processPage` keeps the entry count at or below the reported total (an
entry is only pushed after the over-reporting check passes). -/
theorem processPage_le_total {Item : Type}
    (parse : Nat → List Nat → Except CommunicationError (Option Item)) (total : Nat)
    (raw : List (Except CommunicationError (Nat × List Nat))) :
    ∀ entries entries' : List Item,
      entries.length ≤ total →
      processPage parse total entries raw = .ok entries' →
      entries'.length ≤ total := by
  induction raw with
  | nil =>
    intro entries entries' hle h
    simp only [processPage] at h
    cases h
    exact hle
  | cons result rest ih =>
    intro entries entries' hle h
    simp only [processPage] at h
    cases result with
    | error e => cases h
    | ok tv =>
      obtain ⟨tag, value⟩ := tv
      by_cases hlen : total ≤ entries.length
      · simp [hlen] at h
      · simp only [if_neg hlen] at h
        cases hp : parse tag value with
        | error e => rw [hp] at h; cases h
        | ok o =>
          cases o with
          | some entry =>
            rw [hp] at h
            exact ih (entries ++ [entry]) entries' (by simp; omega) h
          | none =>
            rw [hp] at h
            exact ih entries entries' hle h

/-- The `while` loop of `get_paginated_tlv_data` (single_sp.rs lines
462-534) after the first page has fixed the expected total: while fewer than
`total` entries are collected, fetch the page at the current offset, check
the returned offset and total, decode the page, and fail with the
no-progress error if the page added nothing while the total is non-zero.
The second component counts the RPCs issued. -/
def collectRemaining {Item : Type} (sp : PageOracle)
    (parse : Nat → List Nat → Except CommunicationError (Option Item)) (total : Nat)
    (entries : List Item) : Except CommunicationError (List Item) × Nat :=
  if _hlt : entries.length < total then
    match sp entries.length with
    | .error e => (.error e, 1)
    | .ok (page, raw) =>
      if page.offset ≠ entries.length then
        (.error (.tlvPagination "unexpected offset from SP"), 1)
      else if page.total ≠ total then
        (.error (.tlvPagination "total item count changed"), 1)
      else
        match hp : processPage parse total entries raw with
        | .error e => (.error e, 1)
        | .ok entries' =>
          if hprog : entries'.length = entries.length ∧ 0 < total then
            (.error (.tlvPagination "failed to parse any entries from SP response"), 1)
          else
            let r := collectRemaining sp parse total entries'
            (r.1, r.2 + 1)
  else
    (.ok entries, 0)
termination_by total - entries.length
decreasing_by
  have := processPage_mono parse total raw entries entries' hp
  omega

/-- The function `get_paginated_tlv_data` (single_sp.rs lines 452-537): the loop unrolled
once for the first page, which fixes `page0_total` — on the first page the
returned offset must be 0 and a total above `TLV_RPC_TOTAL_ITEMS_DOS_LIMIT`
fails the query; afterwards `collectRemaining` continues with the recorded
total.  The second component counts the RPCs issued. -/
def get_paginated_tlv_data {Item : Type} (sp : PageOracle)
    (parse : Nat → List Nat → Except CommunicationError (Option Item)) :
    Except CommunicationError (List Item) × Nat :=
  match sp 0 with
  | .error e => (.error e, 1)
  | .ok (page, raw) =>
    if page.offset ≠ 0 then
      (.error (.tlvPagination "unexpected offset from SP"), 1)
    else if TLV_RPC_TOTAL_ITEMS_DOS_LIMIT < page.total then
      (.error (.tlvPagination "too many items"), 1)
    else
      match processPage parse page.total [] raw with
      | .error e => (.error e, 1)
      | .ok entries =>
        if entries.length = 0 ∧ 0 < page.total then
          (.error (.tlvPagination "failed to parse any entries from SP response"), 1)
        else
          let r := collectRemaining sp parse page.total entries
          (r.1, r.2 + 1)

/-- One round of the `AttachedSerialConsoleSend::write` loop, abstracting the
RPC exchange: `capacity` is the number of trailing-data bytes the serializer
can pack into this round's packet
(`gateway_messages::serialize_with_trailing_data` advances the cursor by
`min capacity remaining`), and `ack` is the outcome of the
`SerialConsoleWrite` RPC — the SP's cumulative accepted byte count `n`, or a
failure. -/
structure WriteRound where
  capacity : Nat
  ack : Except CommunicationError Nat
deriving DecidableEq, Repr

/-- Result of the write loop: `ok` carries the final `tx_offset` and the
number of bytes left in the cursor; `blocked` means the round list was
exhausted while data remained (the real loop would keep sending). -/
inductive WriteResult where
  | ok (txOffset remaining : Nat)
  | err (e : CommunicationError)
  | blocked
deriving DecidableEq, Repr

/-- The method `AttachedSerialConsoleSend::write` (single_sp.rs lines 1185-1227): loop
while the cursor is non-empty; each round sends `sent = min capacity
remaining` bytes, validates the ack's cumulative count `n` (`n ≥ tx_offset`
and `n - tx_offset ≤ sent`, else the bogus-serial-console-state error),
rewinds the cursor by the unaccepted tail, and advances `tx_offset` by the
accepted bytes. -/
def write : Nat → Nat → List WriteRound → WriteResult
  | txOffset, 0, _rounds => .ok txOffset 0
  | _txOffset, _rem + 1, [] => .blocked
  | txOffset, rem + 1, round :: rest =>
    let remaining := rem + 1
    let sent := min round.capacity remaining
    match round.ack with
    | .error e => .err e
    | .ok n =>
      if n < txOffset then .err .bogusSerialConsoleState
      else
        let bytesAccepted := n - txOffset
        if sent < bytesAccepted then .err .bogusSerialConsoleState
        else write (txOffset + bytesAccepted) (remaining - bytesAccepted) rest

/-- Decidable description of an SP that acknowledges every round
consistently (each ack `n` satisfies `tx_offset ≤ n` and
`n - tx_offset ≤ sent`) and accepts all remaining bytes by the end of the
round list. -/
def acceptsAll : Nat → Nat → List WriteRound → Bool
  | _txOffset, 0, _rounds => true
  | _txOffset, _rem + 1, [] => false
  | txOffset, rem + 1, round :: rest =>
    match round.ack with
    | .error _ => false
    | .ok n =>
      decide (txOffset ≤ n) && decide (n - txOffset ≤ min round.capacity (rem + 1)) &&
        acceptsAll n (rem + 1 - (n - txOffset)) rest

/-- Claim C1: for every RPC whose request is `ResetComponentTrigger` with
component `SP_ITSELF` or `ResetTrigger`, `rpc_call` uses a max attempt count
equal to `ceil(30000 ms / max(1, per_attempt_timeout in ms))` (characterised
here as the least `m` with `30000 ≤ m * max(1, per_attempt_timeout_ms)`),
regardless of the configured `max_attempts_per_rpc`; for every other request
kind it uses the configured `max_attempts_per_rpc`. -/
theorem rpc_call_self_reset_attempt_count (maxAttemptsPerRpc perMs : Nat) :
    rpcMaxAttempts (.resetComponentTrigger SpComponent.SP_ITSELF) maxAttemptsPerRpc perMs
        = calc_reset_attempts perMs
    ∧ rpcMaxAttempts .resetTrigger maxAttemptsPerRpc perMs = calc_reset_attempts perMs
    ∧ (SP_RESET_TIME_ALLOWED_MS ≤ calc_reset_attempts perMs * max perMs 1
        ∧ ∀ m : Nat, SP_RESET_TIME_ALLOWED_MS ≤ m * max perMs 1 →
            calc_reset_attempts perMs ≤ m)
    ∧ (∀ c : SpComponent, c ≠ SpComponent.SP_ITSELF →
        rpcMaxAttempts (.resetComponentTrigger c) maxAttemptsPerRpc perMs = maxAttemptsPerRpc)
    ∧ (∀ kind : MgsRequest, (∀ c, kind ≠ .resetComponentTrigger c) → kind ≠ .resetTrigger →
        rpcMaxAttempts kind maxAttemptsPerRpc perMs = maxAttemptsPerRpc) := by
  have hd : 0 < max perMs 1 := lt_of_lt_of_le Nat.zero_lt_one (le_max_right _ _)
  refine ⟨by simp [rpcMaxAttempts], rfl, ⟨?_, ?_⟩, ?_, ?_⟩
  · exact (ceil_div_le_iff SP_RESET_TIME_ALLOWED_MS (max perMs 1)
      (calc_reset_attempts perMs) hd).mp (le_refl _)
  · intro m hm
    exact (ceil_div_le_iff SP_RESET_TIME_ALLOWED_MS (max perMs 1) m hd).mpr hm
  · intro c hc
    simp [rpcMaxAttempts, hc]
  · intro kind h1 h2
    cases kind <;> first
      | rfl
      | exact absurd rfl (h1 _)
      | exact absurd rfl h2

theorem rpc_call_self_reset_attempt_count_witness :
    rpcMaxAttempts (.resetComponentTrigger SpComponent.SP_ITSELF) 3 200 = calc_reset_attempts 200
    ∧ calc_reset_attempts 200 ≤ 150
    ∧ rpcMaxAttempts .spState 3 200 = 3
    ∧ rpcMaxAttempts (.resetComponentTrigger ⟨"rot"⟩) 3 200 = 3 := by
  refine ⟨(rpc_call_self_reset_attempt_count 3 200).1, ?_, ?_, ?_⟩
  · exact (rpc_call_self_reset_attempt_count 3 200).2.2.1.2 150
      (by norm_num [SP_RESET_TIME_ALLOWED_MS])
  · exact (rpc_call_self_reset_attempt_count 3 200).2.2.2.2 .spState (fun c => by simp) (by simp)
  · exact (rpc_call_self_reset_attempt_count 3 200).2.2.2.1 ⟨"rot"⟩ (by decide)

/-- Claim C6: `reset_component_trigger` returns `Ok(())` when the RPC fails
with `SpError::ResetComponentTriggerWithoutPrepare` and the component is
`SP_ITSELF`; the same SP error for any other component is returned as an
error. -/
theorem reset_component_trigger_without_prepare (c : SpComponent)
    (hc : c ≠ SpComponent.SP_ITSELF) :
    reset_component_trigger SpComponent.SP_ITSELF
        (.error (.spError .resetComponentTriggerWithoutPrepare)) = .ok ()
    ∧ reset_component_trigger c
        (.error (.spError .resetComponentTriggerWithoutPrepare)) =
      .error (.spError .resetComponentTriggerWithoutPrepare) := by
  constructor
  · simp [reset_component_trigger]
  · simp [reset_component_trigger, hc]

theorem reset_component_trigger_without_prepare_witness :
    reset_component_trigger SpComponent.SP_ITSELF
        (.error (.spError .resetComponentTriggerWithoutPrepare)) = .ok ()
    ∧ reset_component_trigger ⟨"rot"⟩
        (.error (.spError .resetComponentTriggerWithoutPrepare)) =
      .error (.spError .resetComponentTriggerWithoutPrepare) :=
  reset_component_trigger_without_prepare ⟨"rot"⟩ (by decide)

/-- Claim C7: the spec requires every facade RPC method — in particular
`get_caboose_value` and `read_component_caboose` — to return the
bad-response-type error to the caller on a mismatched response variant; the
code instead calls `.unwrap()` on the variant check in those two methods
(single_sp.rs lines 740 and 833) and panics.  This theorem evaluates both
methods at a mismatched response and shows the outcome is a panic, not the
bad-response-type error, while a matching response returns the trailing
data. -/
theorem caboose_facades_panic_on_mismatched_variant :
    get_caboose_value (.ok (.discover, [])) = .panicked
    ∧ read_component_caboose SpComponent.SP_ITSELF 0 [] (.ok (.discover, [])) = .panicked
    ∧ get_caboose_value (.ok (.discover, [])) ≠
        .err (.badResponseType "caboose_value" "discover")
    ∧ get_caboose_value (.ok (.cabooseValue, [1, 2])) = .ok [1, 2] := by
  refine ⟨rfl, rfl, ?_, rfl⟩
  decide

/-- Claim C9: for every `SerialConsoleDetach` command — if the key is absent
or equals the reactor's current serial-console connection key, a detach RPC
is issued (and, on an acked detach, the console channel sender is dropped
and the command succeeds); if a key is present and differs from the current
connection key, the command returns `Ok` without issuing any RPC and without
changing the state. -/
theorem serial_console_detach_key_handling (key : Option Nat) (st : ReactorConsoleState)
    (rpcResult : Except CommunicationError SpResponse) :
    ((key = none ∨ key = some st.serialConsoleConnectionKey) →
      (handle_serial_console_detach key st rpcResult).2.2 = 1
      ∧ (rpcResult = .ok .serialConsoleDetachAck →
          handle_serial_console_detach key st rpcResult =
            (.ok (), { st with serialConsoleTx := false }, 1)))
    ∧ (∀ k : Nat, key = some k → k ≠ st.serialConsoleConnectionKey →
        handle_serial_console_detach key st rpcResult = (.ok (), st, 0)) := by
  constructor
  · intro hk
    constructor
    · simp [handle_serial_console_detach, if_pos hk]
    · intro hr
      subst hr
      simp [handle_serial_console_detach, if_pos hk, detach_serial_console,
        expect_serial_console_detach_ack]
  · intro k hkey hne
    have hcond : ¬(key = none ∨ key = some st.serialConsoleConnectionKey) := by
      subst hkey
      simp [hne]
    simp [handle_serial_console_detach, if_neg hcond]

theorem serial_console_detach_key_handling_witness :
    handle_serial_console_detach none ⟨true, 5⟩ (.ok .serialConsoleDetachAck) =
      (.ok (), ⟨false, 5⟩, 1)
    ∧ handle_serial_console_detach (some 4) ⟨true, 5⟩ (.ok .serialConsoleDetachAck) =
      (.ok (), ⟨true, 5⟩, 0) := by
  constructor
  · exact ((serial_console_detach_key_handling none ⟨true, 5⟩
      (.ok .serialConsoleDetachAck)).1 (by simp)).2 rfl
  · exact (serial_console_detach_key_handling (some 4) ⟨true, 5⟩
      (.ok .serialConsoleDetachAck)).2 4 rfl (by decide)

/-- On a socket trace with no inbound messages, every attempt times out and
`rpcCallAttempts` runs through its whole budget, reporting the configured
`max_attempts_per_rpc` in the final error. -/
theorem rpcCallAttempts_all_timeout (tmo msgId maxAttemptsPerRpc : Nat) :
    ∀ remaining attempt : Nat,
      rpcCallAttempts tmo msgId maxAttemptsPerRpc (fun _ => []) attempt remaining =
        ⟨.err (.exhaustedNumAttempts maxAttemptsPerRpc), remaining⟩ := by
  intro remaining
  induction remaining with
  | zero => intro attempt; rfl
  | succ rem ih =>
    intro attempt
    have h1 : rpc_call_one_attempt tmo msgId [] = ⟨.ok none, 1, [], tmo⟩ := rfl
    simp [rpcCallAttempts, h1, ih (attempt + 1)]

/-- Claim C10: whenever `rpc_call` exhausts its attempt budget, the
`ExhaustedNumAttempts` error carries the configured `max_attempts_per_rpc`,
even for self-reset requests where the number of attempts actually made was
the derived count; the concrete instance shows the reported count (5)
differing from the 30 attempts performed for a `ResetTrigger` with a 1000 ms
per-attempt timeout. -/
theorem exhausted_attempts_reports_configured_max
    (kind : MgsRequest) (maxAttemptsPerRpc perMs msgId : Nat) :
    rpc_call kind maxAttemptsPerRpc perMs msgId (fun _ => []) =
      ⟨.err (.exhaustedNumAttempts maxAttemptsPerRpc),
        rpcMaxAttempts kind maxAttemptsPerRpc perMs⟩
    ∧ rpc_call .resetTrigger 5 1000 1 (fun _ => []) = ⟨.err (.exhaustedNumAttempts 5), 30⟩
    ∧ rpcMaxAttempts .resetTrigger 5 1000 = 30 ∧ (30 : Nat) ≠ 5 := by
  refine ⟨?_, ?_, by decide, by decide⟩
  · exact rpcCallAttempts_all_timeout perMs msgId maxAttemptsPerRpc _ 1
  · show rpcCallAttempts 1000 1 5 (fun _ => []) 1 (rpcMaxAttempts .resetTrigger 5 1000) = _
    rw [rpcCallAttempts_all_timeout 1000 1 5 (rpcMaxAttempts .resetTrigger 5 1000) 1]
    decide

/-- The write loop succeeds exactly by draining the cursor, and the final
`tx_offset` has advanced by the initial remaining byte count. -/
theorem write_ok_of_acceptsAll :
    ∀ (rounds : List WriteRound) (txOffset remaining : Nat),
      acceptsAll txOffset remaining rounds = true →
      write txOffset remaining rounds = .ok (txOffset + remaining) 0 := by
  intro rounds
  induction rounds with
  | nil =>
    intro txOffset remaining h
    cases remaining with
    | zero => simp [write]
    | succ r => simp [acceptsAll] at h
  | cons round rest ih =>
    intro txOffset remaining h
    cases remaining with
    | zero => simp [write]
    | succ rem =>
      simp only [acceptsAll] at h
      cases hack : round.ack with
      | error e => rw [hack] at h; simp at h
      | ok n =>
        rw [hack] at h
        simp only [Bool.and_eq_true, decide_eq_true_eq] at h
        obtain ⟨⟨h1, h2⟩, h3⟩ := h
        simp only [write, hack]
        rw [if_neg (by omega)]
        rw [if_neg (by omega)]
        have hoff : txOffset + (n - txOffset) = n := by omega
        rw [hoff, ih n (rem + 1 - (n - txOffset)) h3]
        have harith : n + (rem + 1 - (n - txOffset)) = txOffset + (rem + 1) := by omega
        rw [harith]

/-- An ack outside the valid window (`n < tx_offset` or more accepted than
sent) fails the write with the bogus-serial-console-state error. -/
theorem write_step_bogus (txOffset rem : Nat) (round : WriteRound)
    (rest : List WriteRound) (n : Nat) (hack : round.ack = .ok n)
    (hbad : n < txOffset ∨ min round.capacity (rem + 1) < n - txOffset) :
    write txOffset (rem + 1) (round :: rest) = .err .bogusSerialConsoleState := by
  simp only [write, hack]
  by_cases h0 : n < txOffset
  · rw [if_pos h0]
  · rcases hbad with h | h
    · exact absurd h h0
    · rw [if_neg h0, if_pos h]

/-- Claim C5: for a serial-console write of `B` bytes where each ack's
cumulative accepted count `n` satisfies `n ≥ tx_offset` and
`n - tx_offset ≤ bytes sent in that round`, and the acks cumulatively accept
all `B` bytes, `write` returns `Ok` with the cursor empty and `tx_offset`
advanced by exactly `B`; any round whose ack has `n < tx_offset` or
`n - tx_offset > bytes sent` makes `write` fail with the
bogus-serial-console-state error. -/
theorem serial_console_write_spec (txOffset B : Nat) (rounds : List WriteRound) :
    (acceptsAll txOffset B rounds = true →
      write txOffset B rounds = .ok (txOffset + B) 0)
    ∧ (∀ (round : WriteRound) (rest : List WriteRound) (n rem : Nat),
        rounds = round :: rest → B = rem + 1 → round.ack = .ok n →
        (n < txOffset ∨ min round.capacity B < n - txOffset) →
        write txOffset B rounds = .err .bogusSerialConsoleState) := by
  constructor
  · exact write_ok_of_acceptsAll rounds txOffset B
  · intro round rest n rem h1 h2 hack hbad
    subst h1
    subst h2
    exact write_step_bogus txOffset rem round rest n hack hbad

theorem serial_console_write_spec_witness :
    write 0 600 [⟨512, .ok 400⟩, ⟨512, .ok 600⟩] = .ok 600 0
    ∧ write 0 600 [⟨512, .ok 700⟩] = .err .bogusSerialConsoleState := by
  constructor
  · exact (serial_console_write_spec 0 600 [⟨512, .ok 400⟩, ⟨512, .ok 600⟩]).1 (by decide)
  · exact (serial_console_write_spec 0 600 [⟨512, .ok 700⟩]).2 ⟨512, .ok 700⟩ [] 700 599
      rfl rfl rfl (by decide)

/-- The busy-backoff state after `j` busy replies: the nominal interval is
`20 · 2^j` capped at 1000 ms. -/
def backoffAfter (j : Nat) : BackoffState :=
  { currentInterval := min (20 * 2 ^ j) 1000
    initialInterval := 20
    multiplier := 2
    maxInterval := 1000
    maxElapsedTime := none }

theorem backoffAfter_zero : backoffAfter 0 = sp_busy_policy := by
  simp [backoffAfter, sp_busy_policy]

theorem nextBackoff_backoffAfter (j : Nat) :
    nextBackoff (backoffAfter j) = some (min (20 * 2 ^ j) 1000, backoffAfter (j + 1)) := by
  simp only [nextBackoff, backoffAfter]
  have h : min (min (20 * 2 ^ j) 1000 * 2) 1000 = min (20 * 2 ^ (j + 1)) 1000 := by
    rw [pow_succ, ← mul_assoc]
    generalize 20 * 2 ^ j = a
    omega
  rw [h]

/-- Splitting a shifted range-map into its head and tail. -/
theorem range_map_shift (f : Nat → Nat) (n j : Nat) :
    (List.range (n + 1)).map (fun i => f (j + i)) =
      f j :: (List.range n).map (fun i => f (j + 1 + i)) := by
  rw [List.range_succ_eq_map, List.map_cons, List.map_map]
  have h1 : ((fun i => f (j + i)) ∘ Nat.succ) = fun i => f (j + 1 + i) := by
    funext i
    simp only [Function.comp]
    congr 1
    omega
  rw [h1]
  simp

/-- A socket trace of `n` busy replies bearing the request's message id,
followed by a matching `SpState` response, all arriving immediately. -/
def busyStorm (n msgId : Nat) : List TimedMsg :=
  List.replicate n (0, InboundMsg.spResponse msgId (.error .busy)) ++
    [(0, InboundMsg.spResponse msgId .spState)]

/-- A busy reply bearing the request's id, arriving before the per-attempt
timer fires, sleeps for the next backoff interval and continues the attempt
loop with the request due for resending. -/
theorem rpcAttemptLoop_step_busy (tmo msgId delay : Nat) (b : BackoffState)
    (rest : List TimedMsg) (hd : delay < tmo) (interval : Nat) (b' : BackoffState)
    (hnb : nextBackoff b = some (interval, b')) :
    rpcAttemptLoop tmo msgId true b tmo
        ((delay, InboundMsg.spResponse msgId (.error .busy)) :: rest) =
      ⟨(rpcAttemptLoop tmo msgId true b' (tmo - delay) rest).result,
        1 + (rpcAttemptLoop tmo msgId true b' (tmo - delay) rest).sends,
        interval :: (rpcAttemptLoop tmo msgId true b' (tmo - delay) rest).sleeps,
        delay + interval + (rpcAttemptLoop tmo msgId true b' (tmo - delay) rest).elapsed⟩ := by
  rw [rpcAttemptLoop]
  simp [hnb, Nat.not_le.mpr hd]

/-- Running one attempt against `busyStorm n`: every busy reply is absorbed
inside the attempt, the request is resent after each backoff sleep, the
sleeps follow the nominal capped-geometric sequence starting at position
`j`, and the attempt returns the final response. -/
theorem busy_run (tmo msgId : Nat) (htmo : 0 < tmo) :
    ∀ n j : Nat,
      rpcAttemptLoop tmo msgId true (backoffAfter j) tmo (busyStorm n msgId) =
        ⟨.ok (some .spState), n + 1,
          (List.range n).map (fun i => min (20 * 2 ^ (j + i)) 1000),
          ((List.range n).map (fun i => min (20 * 2 ^ (j + i)) 1000)).sum⟩ := by
  intro n
  induction n with
  | zero =>
    intro j
    rw [show busyStorm 0 msgId = [(0, InboundMsg.spResponse msgId .spState)] from rfl]
    rw [rpcAttemptLoop]
    simp [Nat.not_le.mpr htmo]
    all_goals simp
  | succ n ih =>
    intro j
    have hstorm : busyStorm (n + 1) msgId =
        (0, InboundMsg.spResponse msgId (.error .busy)) :: busyStorm n msgId := by
      simp [busyStorm, List.replicate_succ]
    rw [hstorm]
    rw [range_map_shift (fun k => min (20 * 2 ^ k) 1000) n j]
    rw [rpcAttemptLoop_step_busy tmo msgId 0 (backoffAfter j) (busyStorm n msgId) htmo
      (min (20 * 2 ^ j) 1000) (backoffAfter (j + 1)) (nextBackoff_backoffAfter j)]
    rw [Nat.sub_zero, ih (j + 1)]
    simp [List.sum_cons, AttemptRun.mk.injEq]
    omega

/-- Claim C2: within a single RPC attempt, every `SpResponse::Error(Busy)`
reply with the matching message id causes a backoff sleep and a resend while
staying inside `rpc_call_one_attempt` (so the iteration does not consume the
attempt budget: the whole storm costs one attempt); the backoff intervals
start at 20 ms, are multiplied by 2.0 per busy reply, are capped at 1000 ms,
and the backoff never gives up (`nextBackoff` never yields `none` for a
policy without a max elapsed time, as in `sp_busy_policy`). -/
theorem busy_backoff_within_one_attempt (n tmo maxAttemptsPerRpc msgId : Nat)
    (htmo : 0 < tmo) (hmax : 0 < maxAttemptsPerRpc) :
    (rpc_call_one_attempt tmo msgId (busyStorm n msgId)).result = .ok (some .spState)
    ∧ (rpc_call_one_attempt tmo msgId (busyStorm n msgId)).sleeps =
        (List.range n).map (fun i => min (20 * 2 ^ i) 1000)
    ∧ (rpc_call_one_attempt tmo msgId (busyStorm n msgId)).sends = n + 1
    ∧ (∀ b : BackoffState, b.maxElapsedTime = none → (nextBackoff b).isSome = true)
    ∧ (rpc_call .spState maxAttemptsPerRpc tmo msgId
        (fun attempt => if attempt = 1 then busyStorm n msgId else [])).attemptsUsed = 1 := by
  have hrun : rpc_call_one_attempt tmo msgId (busyStorm n msgId) =
      ⟨.ok (some .spState), n + 1,
        (List.range n).map (fun i => min (20 * 2 ^ (0 + i)) 1000),
        ((List.range n).map (fun i => min (20 * 2 ^ (0 + i)) 1000)).sum⟩ := by
    rw [rpc_call_one_attempt, ← backoffAfter_zero]
    exact busy_run tmo msgId htmo n 0
  refine ⟨by rw [hrun], by rw [hrun]; simp, by rw [hrun], ?_, ?_⟩
  · intro b hb
    simp [nextBackoff, hb]
  · rw [rpc_call]
    have hmax' : rpcMaxAttempts .spState maxAttemptsPerRpc tmo = maxAttemptsPerRpc := rfl
    rw [hmax']
    cases maxAttemptsPerRpc with
    | zero => exact absurd hmax (by omega)
    | succ m =>
      rw [rpcCallAttempts]
      simp [hrun]

theorem busy_backoff_within_one_attempt_witness :
    (rpc_call_one_attempt 200 7 (busyStorm 3 7)).result = .ok (some .spState)
    ∧ (rpc_call_one_attempt 200 7 (busyStorm 3 7)).sleeps =
        (List.range 3).map (fun i => min (20 * 2 ^ i) 1000)
    ∧ (rpc_call_one_attempt 200 7 (busyStorm 3 7)).sends = 3 + 1
    ∧ (∀ b : BackoffState, b.maxElapsedTime = none → (nextBackoff b).isSome = true)
    ∧ (rpc_call .spState 3 200 7
        (fun attempt => if attempt = 1 then busyStorm 3 7 else [])).attemptsUsed = 1 :=
  busy_backoff_within_one_attempt 3 200 3 7 (by decide) (by decide)

/-- A run of the attempt loop that is only fed out-of-band messages never
resends the request, never resets the timer, and times out with exactly the
remaining time consumed. -/
theorem oob_run_no_reset (tmo msgId : Nat) (b : BackoffState) :
    ∀ (events : List TimedMsg) (r : Nat),
      (∀ e ∈ events, e.2.isOutOfBand = true) →
      rpcAttemptLoop tmo msgId false b r events = ⟨.ok none, 0, [], r⟩ := by
  intro events
  induction events with
  | nil => intro r _h; rfl
  | cons e rest ih =>
    intro r h
    obtain ⟨delay, msg⟩ := e
    have hmsg : msg.isOutOfBand = true := h (delay, msg) (List.mem_cons_self _ _)
    have hrest : ∀ e ∈ rest, e.2.isOutOfBand = true :=
      fun e he => h e (List.mem_cons_of_mem _ he)
    rw [rpcAttemptLoop.eq_def]
    by_cases hto : r ≤ delay
    · simp [hto]
    · cases msg with
      | hostPhase2Request =>
        simp [hto, ih (r - delay) hrest]
        omega
      | serialConsoleData =>
        simp [hto, ih (r - delay) hrest]
        omega
      | spResponse id resp =>
        simp [InboundMsg.isOutOfBand] at hmsg

/-- Claim C3: for every RPC attempt, receipt of any number of
`HostPhase2Request` or `SerialConsoleData` messages does not reset the
per-attempt timer and does not resend the request, so the attempt still
returns a timeout (`Ok(None)`) once the per-attempt deadline elapses — after
exactly `tmo` elapsed milliseconds and a single send — even under a
continuous stream of out-of-band messages. -/
theorem oob_messages_do_not_reset_attempt_timer (tmo msgId : Nat)
    (events : List TimedMsg) (_htmo : 0 < tmo)
    (hoob : ∀ e ∈ events, e.2.isOutOfBand = true) :
    (rpc_call_one_attempt tmo msgId events).result = .ok none
    ∧ (rpc_call_one_attempt tmo msgId events).elapsed = tmo
    ∧ (rpc_call_one_attempt tmo msgId events).sends = 1 := by
  have hrun : rpc_call_one_attempt tmo msgId events = ⟨.ok none, 1, [], tmo⟩ := by
    rw [rpc_call_one_attempt]
    cases events with
    | nil => rfl
    | cons e rest =>
      obtain ⟨delay, msg⟩ := e
      have hmsg : msg.isOutOfBand = true := hoob (delay, msg) (List.mem_cons_self _ _)
      have hrest : ∀ e ∈ rest, e.2.isOutOfBand = true :=
        fun e he => hoob e (List.mem_cons_of_mem _ he)
      rw [rpcAttemptLoop.eq_def]
      by_cases hto : tmo ≤ delay
      · simp [hto]
      · cases msg with
        | hostPhase2Request =>
          simp [hto, oob_run_no_reset tmo msgId sp_busy_policy rest (tmo - delay) hrest]
          omega
        | serialConsoleData =>
          simp [hto, oob_run_no_reset tmo msgId sp_busy_policy rest (tmo - delay) hrest]
          omega
        | spResponse id resp => simp [InboundMsg.isOutOfBand] at hmsg
  rw [hrun]
  exact ⟨rfl, rfl, rfl⟩

theorem oob_messages_do_not_reset_attempt_timer_witness :
    (rpc_call_one_attempt 200 3 [(50, .hostPhase2Request), (100, .serialConsoleData),
        (500, .hostPhase2Request)]).result = .ok none
    ∧ (rpc_call_one_attempt 200 3 [(50, .hostPhase2Request), (100, .serialConsoleData),
        (500, .hostPhase2Request)]).elapsed = 200
    ∧ (rpc_call_one_attempt 200 3 [(50, .hostPhase2Request), (100, .serialConsoleData),
        (500, .hostPhase2Request)]).sends = 1 :=
  oob_messages_do_not_reset_attempt_timer 200 3
    [(50, .hostPhase2Request), (100, .serialConsoleData), (500, .hostPhase2Request)]
    (by decide) (by decide)

/-- If the page-collection loop returns `Ok`, the collected entry count
equals the expected total (the loop only exits `Ok` once
`entries.len() ≥ total`, and the over-reporting check keeps it `≤ total`). -/
theorem collectRemaining_ok_length {Item : Type} (sp : PageOracle)
    (parse : Nat → List Nat → Except CommunicationError (Option Item)) (total : Nat) :
    ∀ (entries : List Item), ∀ l : List Item,
      entries.length ≤ total →
      (collectRemaining sp parse total entries).1 = .ok l →
      l.length = total := by
  intro entries
  induction entries using collectRemaining.induct sp parse total with
  | case1 x hlt e hsp =>
    intro l hle heq
    rw [collectRemaining] at heq
    simp [hlt, hsp] at heq
  | case2 x hlt page raw hsp hoff =>
    intro l hle heq
    rw [collectRemaining] at heq
    simp [hlt, hsp, hoff] at heq
  | case3 x hlt page raw hsp hoff htot =>
    intro l hle heq
    rw [collectRemaining] at heq
    simp [hlt, hsp, hoff, htot] at heq
  | case4 x hlt page raw hsp hoff htot e hproc =>
    intro l hle heq
    rw [collectRemaining] at heq
    simp [hlt, hsp, hoff, htot] at heq
    split at heq
    · simp at heq
    · simp_all
  | case5 x hlt page raw hsp hoff htot entries' hproc hnoprog =>
    intro l hle heq
    rw [collectRemaining] at heq
    simp [hlt, hsp, hoff, htot] at heq
    split at heq
    · simp_all
    · rename_i entries2 hproc2
      rw [hproc] at hproc2
      injection hproc2 with h2
      subst h2
      rw [if_pos hnoprog] at heq
      simp at heq
  | case6 x hlt page raw hsp hoff htot entries' hproc hprog ih =>
    intro l hle heq
    rw [collectRemaining] at heq
    simp [hlt, hsp, hoff, htot] at heq
    split at heq
    · simp_all
    · rename_i entries2 hproc2
      rw [hproc] at hproc2
      injection hproc2 with h2
      subst h2
      rw [if_neg hprog] at heq
      simp at heq
      have hle' : entries'.length ≤ total :=
        processPage_le_total parse total raw x entries' hle hproc
      exact ih l hle' heq
  | case7 x hlt =>
    intro l hle heq
    rw [collectRemaining] at heq
    simp [hlt] at heq
    subst heq
    omega

/-- Claim C8: for every paginated TLV query, if after decoding all TLV
triples of one page the number of collected items is unchanged from the
start of that page (and the declared total is greater than the number of
collected items, hence positive), the query fails with the no-progress
pagination error after exactly the one RPC for that page, instead of
issuing further RPCs. -/
theorem paginated_no_progress_error {Item : Type} (sp : PageOracle)
    (parse : Nat → List Nat → Except CommunicationError (Option Item)) (total : Nat)
    (entries entries' : List Item) (page : TlvPage)
    (raw : List (Except CommunicationError (Nat × List Nat)))
    (hlt : entries.length < total)
    (hsp : sp entries.length = .ok (page, raw))
    (hoff : page.offset = entries.length)
    (htot : page.total = total)
    (hproc : processPage parse total entries raw = .ok entries')
    (hsame : entries'.length = entries.length) :
    collectRemaining sp parse total entries =
      (.error (.tlvPagination "failed to parse any entries from SP response"), 1) := by
  rw [collectRemaining, dif_pos hlt, hsp]
  simp [hoff, htot]
  split
  · rename_i e hp2
    rw [hproc] at hp2
    cases hp2
  · rename_i entries2 hp2
    rw [hproc] at hp2
    injection hp2 with h2
    subst h2
    rw [if_pos ⟨hsame, by omega⟩]

/-- Claim C4 (amended): for every paginated TLV query, if the first page
declares a total `T ≤ 1024` and the query returns `Ok`, the returned vector
has length exactly `T`; if the first page declares `T > 1024` and its
offset field is 0 (matching the request), the query fails with the
too-many-items pagination error before issuing a second RPC; a first page
with a mismatched offset instead fails with the unexpected-offset error,
also before issuing a second RPC (the offset check precedes the DOS-limit
check). -/
theorem get_paginated_tlv_data_totals {Item : Type} (sp : PageOracle)
    (parse : Nat → List Nat → Except CommunicationError (Option Item))
    (page : TlvPage) (raw : List (Except CommunicationError (Nat × List Nat)))
    (hfirst : sp 0 = .ok (page, raw)) :
    (∀ l : List Item, page.total ≤ TLV_RPC_TOTAL_ITEMS_DOS_LIMIT →
      (get_paginated_tlv_data sp parse).1 = .ok l → l.length = page.total)
    ∧ (page.offset = 0 → TLV_RPC_TOTAL_ITEMS_DOS_LIMIT < page.total →
        get_paginated_tlv_data sp parse = (.error (.tlvPagination "too many items"), 1))
    ∧ (page.offset ≠ 0 →
        get_paginated_tlv_data sp parse =
          (.error (.tlvPagination "unexpected offset from SP"), 1)) := by
  refine ⟨?_, ?_, ?_⟩
  · intro l hcap heq
    rw [get_paginated_tlv_data, hfirst] at heq
    by_cases hoff : page.offset ≠ 0
    · simp [hoff] at heq
    · simp [hoff, Nat.not_lt.mpr hcap] at heq
      split at heq
      · simp at heq
      · rename_i entries hp2
        by_cases hnp : entries.length = 0 ∧ 0 < page.total
        · rw [if_pos hnp] at heq
          simp at heq
        · rw [if_neg hnp] at heq
          simp at heq
          exact collectRemaining_ok_length sp parse page.total entries l
            (processPage_le_total parse page.total raw [] entries (Nat.zero_le _) hp2) heq
  · intro hoff hcap
    rw [get_paginated_tlv_data, hfirst]
    simp [hoff, hcap]
  · intro hoff
    rw [get_paginated_tlv_data, hfirst]
    simp [hoff]

/-- An SP whose first page carries a wrong offset field and a declared total
above the DOS limit. -/
def badOffsetHugeTotalSp : PageOracle :=
  fun _ => .ok ({ offset := 1, total := 2000 }, [])

/-- A tag parser that recognises no tag. -/
def nullTagParse : Nat → List Nat → Except CommunicationError (Option Nat) :=
  fun _ _ => .ok none

/-- Claim C4 counterexample: a first page declaring total 2000 > 1024 but
carrying offset 1 makes the query fail with the unexpected-offset error,
not the too-many-items error claimed — the offset check at single_sp.rs
line 477 runs before the DOS-limit check at line 490. -/
theorem get_paginated_offset_check_precedes_dos_check :
    badOffsetHugeTotalSp 0 = .ok ({ offset := 1, total := 2000 }, [])
    ∧ ((2000 : Nat) > TLV_RPC_TOTAL_ITEMS_DOS_LIMIT)
    ∧ (get_paginated_tlv_data badOffsetHugeTotalSp nullTagParse).1 =
        .error (.tlvPagination "unexpected offset from SP")
    ∧ (get_paginated_tlv_data badOffsetHugeTotalSp nullTagParse).1 ≠
        .error (.tlvPagination "too many items") := by
  refine ⟨rfl, by decide, rfl, ?_⟩
  decide

/-- An SP that returns everything in one page of two known-tag entries. -/
def twoItemSp : PageOracle :=
  fun _ => .ok ({ offset := 0, total := 2 }, [.ok (1, [5]), .ok (1, [6])])

/-- A tag parser taking the first byte of the value as the item. -/
def headTagParse : Nat → List Nat → Except CommunicationError (Option Nat) :=
  fun _ v => .ok (some (v.headD 0))

theorem get_paginated_tlv_data_totals_witness :
    (get_paginated_tlv_data twoItemSp headTagParse).1 = .ok [5, 6]
    ∧ ([5, 6] : List Nat).length = 2 := by
  have heval : (get_paginated_tlv_data twoItemSp headTagParse).1 = .ok [5, 6] := by
    rw [get_paginated_tlv_data]
    simp only [twoItemSp, headTagParse, processPage]
    norm_num
    rw [collectRemaining]
    norm_num [TLV_RPC_TOTAL_ITEMS_DOS_LIMIT]
  refine ⟨heval, ?_⟩
  exact (get_paginated_tlv_data_totals twoItemSp headTagParse
    { offset := 0, total := 2 } [.ok (1, [5]), .ok (1, [6])] rfl).1 [5, 6] (by decide) heval

/-- An SP page at offset 1 whose only TLV entry carries a tag unknown to the
parser. -/
def noProgressSp : PageOracle :=
  fun _ => .ok ({ offset := 1, total := 2 }, [.ok (42, [])])

theorem paginated_no_progress_error_witness :
    collectRemaining noProgressSp nullTagParse 2 [7] =
      (.error (.tlvPagination "failed to parse any entries from SP response"), 1) :=
  paginated_no_progress_error noProgressSp nullTagParse 2 [7] [7]
    { offset := 1, total := 2 } [.ok (42, [])]
    (by decide) rfl rfl rfl rfl rfl
